import Mathlib

/-!
Verification of `src/gov_complaints_portal/static/js/copy.js`, the
copy-to-clipboard handler of the Gov-Complaints-Portal repository.

The script is embedded shallowly: each browser-facing step the code performs
(clipboard write, temporary-input manipulation, toast calls, console logging)
is recorded as an `Event` in a trace, and every fallible external call is
given an outcome in the `Env` record. A function returns its event trace
together with the error it lets escape (`none` when it returns normally),
mirroring JavaScript exception flow with explicit `Option` plumbing.
-/

namespace GovComplaintsPortal

/-- A JavaScript error value, identified by its message. -/
abbrev JsError := String

/-- JS truthiness of a `dataset` read: `undefined` (attribute absent) and the
empty string are falsy, every other string is truthy. -/
def jsTruthy : Option String → Bool
  | none => false
  | some s => s != ""

/-- JS `x || d` on a `dataset` read, as in `button.dataset.copyText || ""`. -/
def jsOr (x : Option String) (d : String) : String :=
  if jsTruthy x then x.getD "" else d

/-- Observable steps performed by the script, recorded in order. -/
inductive Event where
  /-- `navigator.clipboard.writeText(value)` was invoked (line 13). -/
  | clipboardWrite (value : String)
  /-- `document.createElement("input")` on the fallback path (line 16). -/
  | createTempInput
  /-- `tempInput.value = value` (line 17). -/
  | setTempValue (value : String)
  /-- `document.body.appendChild(tempInput)` (line 18). -/
  | appendTemp
  /-- `tempInput.select()` (line 19). -/
  | selectTemp
  /-- `document.execCommand("copy")` with the boolean it returned (line 20). -/
  | execCopy (succeeded : Bool)
  /-- `document.body.removeChild(tempInput)` (line 21). -/
  | removeTemp
  /-- `bootstrap.Toast.getOrCreateInstance(toastEl, \x7b delay \x7d)` (line 7). -/
  | toastGetOrCreate (delay : Nat)
  /-- `toast.show()` (line 8). -/
  | toastShow
  /-- `console.error(msg, error)` (line 39). -/
  | consoleError (msg : String) (error : JsError)
  deriving DecidableEq

/-- The browser environment as the script observes it during one activation. -/
structure Env where
  /-- `navigator.clipboard && navigator.clipboard.writeText` is truthy. -/
  clipboardAvailable : Bool
  /-- Outcome of `navigator.clipboard.writeText v`: `some e` when the promise
  rejects with error `e`, `none` when it fulfils. -/
  clipboardWriteError : String → Option JsError
  /-- Boolean returned by `document.execCommand("copy")`. -/
  execCommandSucceeds : Bool
  /-- `window.location.href`. -/
  locationHref : String
  /-- `document.getElementById("copyToast")` found the toast element. -/
  toastElExists : Bool
  /-- `typeof bootstrap` is not `"undefined"`. -/
  bootstrapDefined : Bool
  /-- Outcome of the toast call `toast.show()`: `some e` when it throws. -/
  toastShowError : Option JsError

/-- The `data-` attributes of one trigger element (`.js-copy-btn` button):
`None` models an absent attribute, `some s` an attribute with value `s`. -/
structure Button where
  /-- `button.dataset.copyText` (attribute `data-copy-text`). -/
  dataCopyText : Option String
  /-- `button.dataset.copyUrl` (attribute `data-copy-url`). -/
  dataCopyUrl : Option String

/-- `showCopiedToast()` (lines 2-9): bail out silently when the toast element
is missing or the toolkit is not loaded, otherwise get-or-create the toast
instance with a 1500 ms delay and show it. -/
def showCopiedToast (env : Env) : List Event × Option JsError :=
  if !env.toastElExists || !env.bootstrapDefined then
    ([], none)
  else
    ([Event.toastGetOrCreate 1500, Event.toastShow], env.toastShowError)

/-- `copyText(value)` (lines 11-22): write through the async clipboard API
when it is available, otherwise run the temporary-input fallback. -/
def copyText (env : Env) (value : String) : List Event × Option JsError :=
  if env.clipboardAvailable then
    ([Event.clipboardWrite value], env.clipboardWriteError value)
  else
    ([Event.createTempInput, Event.setTempValue value, Event.appendTemp,
      Event.selectTemp, Event.execCopy env.execCommandSucceeds,
      Event.removeTemp], none)

/-- Request resolution (lines 29-32): start from
`button.dataset.copyText || ""` and override it with `window.location.href`
when `button.dataset.copyUrl` is truthy. -/
def resolveText (env : Env) (button : Button) : String :=
  let textToCopy := jsOr button.dataCopyText ""
  if jsTruthy button.dataCopyUrl then env.locationHref else textToCopy

/-- The per-button click handler (lines 27-41): resolve the text, return
silently when it is empty, otherwise copy it and show the toast, with the
whole sequence wrapped in `try`/`catch (error) \x7b console.error(...) \x7d`. -/
def clickHandler (env : Env) (button : Button) : List Event × Option JsError :=
  let textToCopy := resolveText env button
  if textToCopy == "" then
    ([], none)
  else
    let w := copyText env textToCopy
    match w.2 with
    | some e => (w.1 ++ [Event.consoleError "Copy failed:" e], none)
    | none =>
      let a := showCopiedToast env
      match a.2 with
      | some e => (w.1 ++ a.1 ++ [Event.consoleError "Copy failed:" e], none)
      | none => (w.1 ++ a.1, none)

/-- The first error raised inside the `try` block of one activation, if any
(the error the `catch` clause receives). -/
def stepError (env : Env) (button : Button) : Option JsError :=
  let textToCopy := resolveText env button
  if textToCopy == "" then none
  else
    match (copyText env textToCopy).2 with
    | some e => some e
    | none => (showCopiedToast env).2

/-- Texts handed to the clipboard-write path: arguments of the primary
`writeText` call and values injected into the fallback temporary input. -/
def submittedTexts (evs : List Event) : List String :=
  evs.filterMap fun ev =>
    match ev with
    | Event.clipboardWrite s => some s
    | Event.setTempValue s => some s
    | _ => none

/-- Number of `console.error` diagnostics in a trace. -/
def countConsoleErrors (evs : List Event) : Nat :=
  (evs.filter fun ev =>
    match ev with
    | Event.consoleError _ _ => true
    | _ => false).length

/-- Number of toast (acknowledgment) calls in a trace. -/
def countToastEvents (evs : List Event) : Nat :=
  (evs.filter fun ev =>
    match ev with
    | Event.toastGetOrCreate _ => true
    | Event.toastShow => true
    | _ => false).length

/-- Number of temporary inputs created in a trace. -/
def countTempCreates (evs : List Event) : Nat :=
  (evs.filter fun ev =>
    match ev with
    | Event.createTempInput => true
    | _ => false).length

/-- Number of temporary inputs removed from the document in a trace. -/
def countTempRemoves (evs : List Event) : Nat :=
  (evs.filter fun ev =>
    match ev with
    | Event.removeTemp => true
    | _ => false).length

/-- Number of clipboard-write attempts (either path) in a trace. -/
def countWriteAttempts (evs : List Event) : Nat :=
  (evs.filter fun ev =>
    match ev with
    | Event.clipboardWrite _ => true
    | Event.createTempInput => true
    | _ => false).length

/-- Which clipboard-write strategy one activation takes. -/
inductive WritePath where
  | primary
  | fallback
  deriving DecidableEq

/-- The write path an activation selects: `none` when the empty-text guard
aborts it, otherwise primary or fallback by `env.clipboardAvailable`,
mirroring the branch at line 12. -/
def writePath (env : Env) (button : Button) : Option WritePath :=
  if resolveText env button == "" then none
  else if env.clipboardAvailable then some WritePath.primary
  else some WritePath.fallback

/-! ### Helper lemmas on traces -/

theorem submittedTexts_append (l₁ l₂ : List Event) :
    submittedTexts (l₁ ++ l₂) = submittedTexts l₁ ++ submittedTexts l₂ := by
  simp [submittedTexts]

theorem countConsoleErrors_append (l₁ l₂ : List Event) :
    countConsoleErrors (l₁ ++ l₂) = countConsoleErrors l₁ + countConsoleErrors l₂ := by
  simp [countConsoleErrors]

theorem countToastEvents_append (l₁ l₂ : List Event) :
    countToastEvents (l₁ ++ l₂) = countToastEvents l₁ + countToastEvents l₂ := by
  simp [countToastEvents]

theorem countTempCreates_append (l₁ l₂ : List Event) :
    countTempCreates (l₁ ++ l₂) = countTempCreates l₁ + countTempCreates l₂ := by
  simp [countTempCreates]

theorem countTempRemoves_append (l₁ l₂ : List Event) :
    countTempRemoves (l₁ ++ l₂) = countTempRemoves l₁ + countTempRemoves l₂ := by
  simp [countTempRemoves]

theorem countWriteAttempts_append (l₁ l₂ : List Event) :
    countWriteAttempts (l₁ ++ l₂) = countWriteAttempts l₁ + countWriteAttempts l₂ := by
  simp [countWriteAttempts]

theorem copyText_snd (env : Env) (v : String) :
    (copyText env v).2 =
      if env.clipboardAvailable then env.clipboardWriteError v else none := by
  unfold copyText; split <;> rfl

theorem submittedTexts_copyText (env : Env) (v : String) :
    submittedTexts (copyText env v).1 = [v] := by
  unfold copyText submittedTexts; split <;> rfl

theorem countConsoleErrors_copyText (env : Env) (v : String) :
    countConsoleErrors (copyText env v).1 = 0 := by
  unfold copyText countConsoleErrors; split <;> rfl

theorem countToastEvents_copyText (env : Env) (v : String) :
    countToastEvents (copyText env v).1 = 0 := by
  unfold copyText countToastEvents; split <;> rfl

theorem countTempCreates_copyText (env : Env) (v : String) :
    countTempCreates (copyText env v).1 =
      if env.clipboardAvailable then 0 else 1 := by
  unfold copyText countTempCreates; split <;> rfl

theorem countTempRemoves_copyText (env : Env) (v : String) :
    countTempRemoves (copyText env v).1 =
      if env.clipboardAvailable then 0 else 1 := by
  unfold copyText countTempRemoves; split <;> rfl

theorem countWriteAttempts_copyText (env : Env) (v : String) :
    countWriteAttempts (copyText env v).1 = 1 := by
  unfold copyText countWriteAttempts; split <;> rfl

theorem showCopiedToast_snd (env : Env) :
    (showCopiedToast env).2 =
      if !env.toastElExists || !env.bootstrapDefined then none
      else env.toastShowError := by
  unfold showCopiedToast; split <;> rfl

theorem submittedTexts_showCopiedToast (env : Env) :
    submittedTexts (showCopiedToast env).1 = [] := by
  unfold showCopiedToast submittedTexts; split <;> rfl

theorem countConsoleErrors_showCopiedToast (env : Env) :
    countConsoleErrors (showCopiedToast env).1 = 0 := by
  unfold showCopiedToast countConsoleErrors; split <;> rfl

theorem countToastEvents_showCopiedToast (env : Env) :
    countToastEvents (showCopiedToast env).1 =
      if !env.toastElExists || !env.bootstrapDefined then 0 else 2 := by
  unfold showCopiedToast countToastEvents; split <;> rfl

theorem countTempCreates_showCopiedToast (env : Env) :
    countTempCreates (showCopiedToast env).1 = 0 := by
  unfold showCopiedToast countTempCreates; split <;> rfl

theorem countTempRemoves_showCopiedToast (env : Env) :
    countTempRemoves (showCopiedToast env).1 = 0 := by
  unfold showCopiedToast countTempRemoves; split <;> rfl

theorem countWriteAttempts_showCopiedToast (env : Env) :
    countWriteAttempts (showCopiedToast env).1 = 0 := by
  unfold showCopiedToast countWriteAttempts; split <;> rfl

theorem submittedTexts_nil : submittedTexts [] = [] := rfl

theorem countConsoleErrors_nil : countConsoleErrors [] = 0 := rfl

theorem countToastEvents_nil : countToastEvents [] = 0 := rfl

theorem countTempCreates_nil : countTempCreates [] = 0 := rfl

theorem countTempRemoves_nil : countTempRemoves [] = 0 := rfl

theorem countWriteAttempts_nil : countWriteAttempts [] = 0 := rfl

theorem submittedTexts_ce (m : String) (e : JsError) :
    submittedTexts [Event.consoleError m e] = [] := rfl

theorem countConsoleErrors_ce (m : String) (e : JsError) :
    countConsoleErrors [Event.consoleError m e] = 1 := rfl

theorem countToastEvents_ce (m : String) (e : JsError) :
    countToastEvents [Event.consoleError m e] = 0 := rfl

theorem countTempCreates_ce (m : String) (e : JsError) :
    countTempCreates [Event.consoleError m e] = 0 := rfl

theorem countTempRemoves_ce (m : String) (e : JsError) :
    countTempRemoves [Event.consoleError m e] = 0 := rfl

theorem countWriteAttempts_ce (m : String) (e : JsError) :
    countWriteAttempts [Event.consoleError m e] = 0 := rfl

/-- Shape of the handler's trace, splitting on the guard and on the two
possible throwing steps. -/
theorem clickHandler_fst_split (env : Env) (b : Button) :
    (clickHandler env b).1 =
      if resolveText env b == "" then []
      else
        (copyText env (resolveText env b)).1 ++
        match (copyText env (resolveText env b)).2 with
        | some e => [Event.consoleError "Copy failed:" e]
        | none =>
          (showCopiedToast env).1 ++
          match (showCopiedToast env).2 with
          | some e => [Event.consoleError "Copy failed:" e]
          | none => [] := by
  unfold clickHandler
  by_cases hg : resolveText env b == ""
  · simp [hg]
  · simp only [hg, if_false]
    rcases hw : (copyText env (resolveText env b)).2 with _ | e
    · rcases ha : (showCopiedToast env).2 with _ | e2 <;> simp [hw, ha]
    · simp [hw]

/-- The handler never lets an error escape. -/
theorem clickHandler_err (env : Env) (b : Button) :
    (clickHandler env b).2 = none := by
  unfold clickHandler
  by_cases hg : resolveText env b == ""
  · simp [hg]
  · simp only [hg, if_false]
    rcases hw : (copyText env (resolveText env b)).2 with _ | e
    · rcases ha : (showCopiedToast env).2 with _ | e2 <;> simp [hw, ha]
    · simp [hw]

/-- The texts submitted to the write path are exactly the resolved text,
once, unless the empty-text guard aborts the activation. -/
theorem submittedTexts_clickHandler (env : Env) (b : Button) :
    submittedTexts (clickHandler env b).1 =
      if resolveText env b == "" then [] else [resolveText env b] := by
  rw [clickHandler_fst_split]
  by_cases hg : resolveText env b == ""
  · simp [hg, submittedTexts_nil]
  · simp only [hg, if_false]
    rcases hw : (copyText env (resolveText env b)).2 with _ | e
    · rcases ha : (showCopiedToast env).2 with _ | e2 <;>
        simp [hw, ha, submittedTexts_append, submittedTexts_copyText,
          submittedTexts_showCopiedToast, submittedTexts_ce, submittedTexts_nil]
    · simp [hw, submittedTexts_append, submittedTexts_copyText,
        submittedTexts_ce]

/-- Exactly one diagnostic is logged when a step throws, none otherwise. -/
theorem countConsoleErrors_clickHandler (env : Env) (b : Button) :
    countConsoleErrors (clickHandler env b).1 =
      match stepError env b with
      | none => 0
      | some _ => 1 := by
  rw [clickHandler_fst_split]
  unfold stepError
  by_cases hg : resolveText env b == ""
  · simp [hg, countConsoleErrors_nil]
  · simp only [hg, if_false]
    rcases hw : (copyText env (resolveText env b)).2 with _ | e
    · rcases ha : (showCopiedToast env).2 with _ | e2 <;>
        simp [hw, ha, countConsoleErrors_append, countConsoleErrors_copyText,
          countConsoleErrors_showCopiedToast, countConsoleErrors_ce,
          countConsoleErrors_nil]
    · simp [hw, countConsoleErrors_append, countConsoleErrors_copyText,
        countConsoleErrors_ce]

/-- The diagnostic carries the fixed prefix and the original error. -/
theorem consoleError_mem_clickHandler (env : Env) (b : Button) (e : JsError)
    (h : stepError env b = some e) :
    Event.consoleError "Copy failed:" e ∈ (clickHandler env b).1 := by
  rw [clickHandler_fst_split]
  unfold stepError at h
  by_cases hg : resolveText env b == ""
  · simp [hg] at h
  · simp only [hg, if_false] at h ⊢
    rcases hw : (copyText env (resolveText env b)).2 with _ | e1
    · rw [hw] at h
      simp only at h
      rcases ha : (showCopiedToast env).2 with _ | e2
      · rw [ha] at h; cases h
      · rw [ha] at h
        cases h
        simp [ha]
    · rw [hw] at h
      cases h
      simp [hw]

/-! ### Concrete environments and buttons used by witnesses -/

/-- Primary clipboard available, write fulfils, toast infrastructure loaded. -/
def envPrimaryOk : Env :=
  Env.mk true (fun _ => none) true "https://example.org/case/42" true true none

/-- Primary clipboard available but every write rejects with `"denied"`. -/
def envPrimaryFails : Env :=
  Env.mk true (fun _ => some "denied") true "https://example.org/case/42"
    true true none

/-- Primary clipboard absent and the legacy copy command reports failure. -/
def envFallbackCmdFails : Env :=
  Env.mk false (fun _ => none) false "https://example.org/case/42" true true none

/-- Primary clipboard available but the page address is the empty string. -/
def envEmptyHref : Env :=
  Env.mk true (fun _ => none) true "" true true none

/-- Toast element missing from the document. -/
def envNoToastEl : Env :=
  Env.mk true (fun _ => none) true "https://example.org/case/42" false true none

/-- Button with a literal text attribute and no URL flag. -/
def btnLiteral : Button := Button.mk (some "ABC123") none

/-- Button with a literal text and the URL flag present but empty-valued. -/
def btnFlagEmptyVal : Button := Button.mk (some "hello") (some "")

/-- Button with a literal text and the URL flag set to `"true"`. -/
def btnUrl : Button := Button.mk (some "ignored") (some "true")

/-- Button with neither attribute. -/
def btnBare : Button := Button.mk none none

/-! ### Claims -/

/-- C1, counterexample: the URL flag attribute is present (with value `""`)
on a button that also carries literal text `"hello"`, yet the activation
submits `"hello"`, not the page address, to the clipboard-write path: the
code tests the flag's truthiness (line 30), not its presence. -/
theorem url_flag_presence_not_enough :
    (btnFlagEmptyVal.dataCopyUrl).isSome = true ∧
    submittedTexts (clickHandler envPrimaryOk btnFlagEmptyVal).1 = ["hello"] ∧
    submittedTexts (clickHandler envPrimaryOk btnFlagEmptyVal).1 ≠
      [envPrimaryOk.locationHref] := by
  refine ⟨rfl, ?_, ?_⟩ <;> decide

/-- C1, amended: for every trigger element whose URL flag attribute is
truthy (present with a non-empty value), the resolved request text is the
current page's full address regardless of any literal-text attribute value,
and whenever that address is non-empty it is what is submitted to the
clipboard-write path. -/
theorem url_flag_overrides (env : Env) (b : Button)
    (h : jsTruthy b.dataCopyUrl = true) :
    resolveText env b = env.locationHref ∧
    (env.locationHref ≠ "" →
      submittedTexts (clickHandler env b).1 = [env.locationHref]) := by
  have hres : resolveText env b = env.locationHref := by
    simp [resolveText, h]
  refine ⟨hres, fun hne => ?_⟩
  rw [submittedTexts_clickHandler, hres]
  simp [hne]

/-- C1 witness: `btnUrl` carries literal text `"ignored"` and a truthy URL
flag; the page address is submitted. -/
theorem url_flag_overrides_witness :
    resolveText envPrimaryOk btnUrl = envPrimaryOk.locationHref ∧
    submittedTexts (clickHandler envPrimaryOk btnUrl).1 =
      [envPrimaryOk.locationHref] :=
  ⟨(url_flag_overrides envPrimaryOk btnUrl (by decide)).1,
    (url_flag_overrides envPrimaryOk btnUrl (by decide)).2 (by decide)⟩

/-- C2: for every activation the handler returns normally (no error escapes
the click handler), and for every error raised by a step of the per-click
sequence exactly one console diagnostic is recorded, carrying the fixed
prefix `"Copy failed:"` and the original error. -/
theorem failure_containment (env : Env) (b : Button) :
    (clickHandler env b).2 = none ∧
    ∀ e : JsError, stepError env b = some e →
      countConsoleErrors (clickHandler env b).1 = 1 ∧
      Event.consoleError "Copy failed:" e ∈ (clickHandler env b).1 := by
  refine ⟨clickHandler_err env b, fun e he => ⟨?_, ?_⟩⟩
  · rw [countConsoleErrors_clickHandler, he]
  · exact consoleError_mem_clickHandler env b e he

/-- C2 witness: with the clipboard write rejecting with `"denied"`, the
handler returns normally and logs that error exactly once. -/
theorem failure_containment_witness :
    (clickHandler envPrimaryFails btnLiteral).2 = none ∧
    countConsoleErrors (clickHandler envPrimaryFails btnLiteral).1 = 1 ∧
    Event.consoleError "Copy failed:" "denied" ∈
      (clickHandler envPrimaryFails btnLiteral).1 :=
  ⟨(failure_containment envPrimaryFails btnLiteral).1,
    (failure_containment envPrimaryFails btnLiteral).2 "denied" (by decide)⟩

/-- C4: a trigger with a non-empty literal-text attribute and no URL flag
submits exactly that string, unmodified, to the clipboard-write path. -/
theorem literal_text_submitted (env : Env) (b : Button) (s : String)
    (h1 : b.dataCopyText = some s) (h2 : s ≠ "") (h3 : b.dataCopyUrl = none) :
    submittedTexts (clickHandler env b).1 = [s] := by
  have hres : resolveText env b = s := by
    unfold resolveText jsOr jsTruthy
    rw [h1, h3]
    simp [h2]
  rw [submittedTexts_clickHandler, hres]
  simp [h2]

/-- C4 witness: `data-copy-text="ABC123"` and no URL flag submit
`"ABC123"`. -/
theorem literal_text_submitted_witness :
    submittedTexts (clickHandler envPrimaryOk btnLiteral).1 = ["ABC123"] :=
  literal_text_submitted envPrimaryOk btnLiteral "ABC123" rfl (by decide) rfl

/-- C5: a trigger with neither attribute produces an empty trace (zero
clipboard-write attempts, zero acknowledgment attempts) and no error: the
empty resolved text is a silent early return. -/
theorem no_attributes_noop (env : Env) (b : Button)
    (h1 : b.dataCopyText = none) (h2 : b.dataCopyUrl = none) :
    clickHandler env b = ([], none) ∧
    countWriteAttempts (clickHandler env b).1 = 0 ∧
    countToastEvents (clickHandler env b).1 = 0 := by
  have hres : resolveText env b = "" := by
    simp [resolveText, jsOr, jsTruthy, h1, h2]
  have hmain : clickHandler env b = ([], none) := by
    unfold clickHandler
    rw [hres]
    rfl
  refine ⟨hmain, ?_, ?_⟩ <;> rw [hmain] <;> rfl

/-- C5 witness: the bare button is a no-op in a fully capable
environment. -/
theorem no_attributes_noop_witness :
    clickHandler envPrimaryOk btnBare = ([], none) ∧
    countWriteAttempts (clickHandler envPrimaryOk btnBare).1 = 0 ∧
    countToastEvents (clickHandler envPrimaryOk btnBare).1 = 0 :=
  no_attributes_noop envPrimaryOk btnBare rfl rfl

theorem copyText_fst_fallback (env : Env) (v : String)
    (h : env.clipboardAvailable = false) :
    (copyText env v).1 =
      [Event.createTempInput, Event.setTempValue v, Event.appendTemp,
        Event.selectTemp, Event.execCopy env.execCommandSucceeds,
        Event.removeTemp] := by
  unfold copyText
  rw [h]
  rfl

/-- C3: with the primary clipboard capability unavailable, the activation's
trace runs through the full fallback sequence — one temporary input created,
its value set to exactly the request text, appended, selected, the copy
command invoked, and the input removed — and exactly one temporary input is
created and removed, whatever boolean the copy command reports. -/
theorem fallback_temp_lifecycle (env : Env) (b : Button)
    (h1 : env.clipboardAvailable = false) (h2 : resolveText env b ≠ "") :
    (∃ rest, (clickHandler env b).1 =
      Event.createTempInput :: Event.setTempValue (resolveText env b) ::
      Event.appendTemp :: Event.selectTemp ::
      Event.execCopy env.execCommandSucceeds :: Event.removeTemp :: rest) ∧
    countTempCreates (clickHandler env b).1 = 1 ∧
    countTempRemoves (clickHandler env b).1 = 1 := by
  have hw2 : (copyText env (resolveText env b)).2 = none := by
    rw [copyText_snd, h1]
    rfl
  have hw1 := copyText_fst_fallback env (resolveText env b) h1
  have hc : countTempCreates (copyText env (resolveText env b)).1 = 1 := by
    rw [countTempCreates_copyText, h1]
    rfl
  have hr : countTempRemoves (copyText env (resolveText env b)).1 = 1 := by
    rw [countTempRemoves_copyText, h1]
    rfl
  rw [clickHandler_fst_split]
  simp only [h2, beq_iff_eq, if_false, hw2]
  rcases ha : (showCopiedToast env).2 with _ | e
  · refine ⟨⟨(showCopiedToast env).1 ++ [], ?_⟩, ?_, ?_⟩
    · rw [hw1]
      simp
    · simp [countTempCreates_append, hc, countTempCreates_showCopiedToast,
        countTempCreates_nil]
    · simp [countTempRemoves_append, hr, countTempRemoves_showCopiedToast,
        countTempRemoves_nil]
  · refine ⟨⟨(showCopiedToast env).1 ++
        [Event.consoleError "Copy failed:" e], ?_⟩, ?_, ?_⟩
    · rw [hw1]
      simp
    · simp [countTempCreates_append, hc, countTempCreates_showCopiedToast,
        countTempCreates_ce]
    · simp [countTempRemoves_append, hr, countTempRemoves_showCopiedToast,
        countTempRemoves_ce]

/-- C3 witness: clipboard API absent and the copy command reporting failure
still create and remove exactly one temporary input. -/
theorem fallback_temp_lifecycle_witness :
    envFallbackCmdFails.execCommandSucceeds = false ∧
    countTempCreates (clickHandler envFallbackCmdFails btnLiteral).1 = 1 ∧
    countTempRemoves (clickHandler envFallbackCmdFails btnLiteral).1 = 1 :=
  ⟨rfl,
    (fallback_temp_lifecycle envFallbackCmdFails btnLiteral rfl (by decide)).2.1,
    (fallback_temp_lifecycle envFallbackCmdFails btnLiteral rfl (by decide)).2.2⟩

/-- C6: when the primary clipboard capability is available and its write
succeeds, no temporary input element is created during the activation. -/
theorem primary_no_temp_input (env : Env) (b : Button)
    (h1 : env.clipboardAvailable = true)
    (h2 : env.clipboardWriteError (resolveText env b) = none) :
    countTempCreates (clickHandler env b).1 = 0 := by
  rw [clickHandler_fst_split]
  by_cases hg : resolveText env b == ""
  · simp [hg, countTempCreates_nil]
  · simp only [hg, if_false]
    have hw2 : (copyText env (resolveText env b)).2 = none := by
      rw [copyText_snd, h1, h2]
      rfl
    rw [hw2]
    rcases ha : (showCopiedToast env).2 with _ | e <;>
      simp [ha, countTempCreates_append, countTempCreates_copyText, h1,
        countTempCreates_showCopiedToast, countTempCreates_ce,
        countTempCreates_nil]

/-- C6 witness: capable environment, fulfilling write, literal button. -/
theorem primary_no_temp_input_witness :
    countTempCreates (clickHandler envPrimaryOk btnLiteral).1 = 0 :=
  primary_no_temp_input envPrimaryOk btnLiteral rfl rfl

/-- C7: when the clipboard-write step throws, the toast step never runs,
exactly one diagnostic carrying the original error is logged, and no error
escapes the handler. -/
theorem write_throw_suppressed (env : Env) (b : Button) (e : JsError)
    (h1 : env.clipboardAvailable = true)
    (h2 : resolveText env b ≠ "")
    (h3 : env.clipboardWriteError (resolveText env b) = some e) :
    countToastEvents (clickHandler env b).1 = 0 ∧
    countConsoleErrors (clickHandler env b).1 = 1 ∧
    Event.consoleError "Copy failed:" e ∈ (clickHandler env b).1 ∧
    (clickHandler env b).2 = none := by
  have hw2 : (copyText env (resolveText env b)).2 = some e := by
    rw [copyText_snd, h1, h3]
    rfl
  have hstep : stepError env b = some e := by
    unfold stepError
    simp [h2, hw2]
  refine ⟨?_, ?_, ?_, clickHandler_err env b⟩
  · rw [clickHandler_fst_split]
    simp [h2, hw2, countToastEvents_append, countToastEvents_copyText,
      countToastEvents_ce]
  · rw [countConsoleErrors_clickHandler, hstep]
  · exact consoleError_mem_clickHandler env b e hstep

/-- C7 witness: a rejected write on the literal button produces no toast
call, one `"denied"` diagnostic, and a normal return. -/
theorem write_throw_suppressed_witness :
    countToastEvents (clickHandler envPrimaryFails btnLiteral).1 = 0 ∧
    countConsoleErrors (clickHandler envPrimaryFails btnLiteral).1 = 1 ∧
    Event.consoleError "Copy failed:" "denied" ∈
      (clickHandler envPrimaryFails btnLiteral).1 ∧
    (clickHandler envPrimaryFails btnLiteral).2 = none :=
  write_throw_suppressed envPrimaryFails btnLiteral "denied" rfl (by decide) rfl

/-- C8: the acknowledgment step is a silent no-op when the toast element is
missing or the toolkit is unavailable; otherwise it gets-or-creates the
instance with a 1500-unit auto-dismiss delay and triggers it to display. -/
theorem toast_ack (env : Env) :
    ((env.toastElExists = false ∨ env.bootstrapDefined = false) →
      showCopiedToast env = ([], none)) ∧
    (env.toastElExists = true → env.bootstrapDefined = true →
      (showCopiedToast env).1 =
        [Event.toastGetOrCreate 1500, Event.toastShow]) := by
  constructor
  · intro h
    unfold showCopiedToast
    rcases h with h | h <;> rw [h] <;> simp
  · intro h1 h2
    unfold showCopiedToast
    rw [h1, h2]
    rfl

/-- C8 witness: a missing toast element yields a no-op; a loaded toolkit
yields the get-or-create(1500)/show trace. -/
theorem toast_ack_witness :
    showCopiedToast envNoToastEl = ([], none) ∧
    (showCopiedToast envPrimaryOk).1 =
      [Event.toastGetOrCreate 1500, Event.toastShow] :=
  ⟨(toast_ack envNoToastEl).1 (Or.inl rfl), (toast_ack envPrimaryOk).2 rfl rfl⟩

/-- C9: once a truthy URL flag selects the URL source, an empty page address
silently abandons the activation even when the element carries non-empty
literal text: the literal is never used as a fallback. -/
theorem url_source_empty_aborts (env : Env) (b : Button)
    (h1 : jsTruthy b.dataCopyUrl = true) (h2 : env.locationHref = "") :
    clickHandler env b = ([], none) := by
  have hres : resolveText env b = "" := by
    simp [resolveText, h1, h2]
  unfold clickHandler
  rw [hres]
  rfl

/-- C9 witness: the button carries non-empty literal text `"ignored"`, yet
with an empty page address the activation is a complete no-op. -/
theorem url_source_empty_aborts_witness :
    btnUrl.dataCopyText = some "ignored" ∧
    clickHandler envEmptyHref btnUrl = ([], none) :=
  ⟨rfl, url_source_empty_aborts envEmptyHref btnUrl (by decide) rfl⟩

/-- C10: resolution and write-path selection are deterministic — two
activations agreeing on the trigger's attributes, the clipboard-capability
availability and the page address resolve the same request text, select the
same write path, and submit the same texts to the write path. -/
theorem resolution_deterministic (e₁ e₂ : Env) (b₁ b₂ : Button)
    (h1 : b₁.dataCopyText = b₂.dataCopyText)
    (h2 : b₁.dataCopyUrl = b₂.dataCopyUrl)
    (h3 : e₁.clipboardAvailable = e₂.clipboardAvailable)
    (h4 : e₁.locationHref = e₂.locationHref) :
    resolveText e₁ b₁ = resolveText e₂ b₂ ∧
    writePath e₁ b₁ = writePath e₂ b₂ ∧
    submittedTexts (clickHandler e₁ b₁).1 =
      submittedTexts (clickHandler e₂ b₂).1 := by
  have hres : resolveText e₁ b₁ = resolveText e₂ b₂ := by
    unfold resolveText
    rw [h1, h2, h4]
  refine ⟨hres, ?_, ?_⟩
  · unfold writePath
    rw [hres, h3]
  · rw [submittedTexts_clickHandler, submittedTexts_clickHandler, hres]

/-- C10 witness: two environments differing only in the write's outcome
resolve and route the literal button identically. -/
theorem resolution_deterministic_witness :
    resolveText envPrimaryOk btnLiteral = resolveText envPrimaryFails btnLiteral ∧
    writePath envPrimaryOk btnLiteral = writePath envPrimaryFails btnLiteral ∧
    submittedTexts (clickHandler envPrimaryOk btnLiteral).1 =
      submittedTexts (clickHandler envPrimaryFails btnLiteral).1 :=
  resolution_deterministic envPrimaryOk envPrimaryFails btnLiteral btnLiteral
    rfl rfl rfl rfl

end GovComplaintsPortal
